import Mathlib

/-!
Verification of the Snack-N-Go order submission workflow engine
(`all_connected/bot.py`, `all_connected/gemini.py`) against its
natural-language specification.

The Python code is shallowly embedded: the per-order record is a Lean
structure mirroring the `orders` row, and the stateful Slack handlers
become pure functions from the record (plus the outcomes of the external
collaborators: Slack download, record store, extraction backend) to the
new record and the list of user-visible messages.  External effects that
the claims do not touch (actual Slack payloads, MySQL wire behaviour,
the Gemini network call) are represented by their outcomes, passed as
explicit parameters.
-/

namespace SnackNGo

/-- A dynamically typed column value, as stored in the `orders` row:
restaurant name and address are text, the four time columns are unix
timestamps. -/
inductive Value where
  | vStr (s : String)
  | vInt (n : Int)
deriving DecidableEq

/-- The `orders` record, mirroring the columns that `bot.py` reads and
writes.  Extracted and verifiable columns are nullable (`Option`); the
per-field verification flags are booleans. -/
structure Order where
  status : String
  app_used : Option String
  restaurant_name : Option Value
  restaurant_address : Option Value
  order_placement_time : Option Value
  earliest_estimated_arrival_time : Option Value
  latest_estimated_arrival_time : Option Value
  order_completion_time : Option Value
  is_restaurant_name_verified : Bool
  is_restaurant_address_verified : Bool
  is_order_placement_time_verified : Bool
  is_earliest_estimated_arrival_time_verified : Bool
  is_latest_estimated_arrival_time_verified : Bool
  is_order_completion_time_verified : Bool
  placement_screenshot_path : Option String
  completion_screenshot_path : Option String
deriving DecidableEq

/-- Python `order.get(field)` for the six verifiable value columns;
an unknown key yields `none` (dict `.get` default). -/
def Order.getField (o : Order) (name : String) : Option Value :=
  if name = "restaurant_name" then o.restaurant_name
  else if name = "restaurant_address" then o.restaurant_address
  else if name = "order_placement_time" then o.order_placement_time
  else if name = "earliest_estimated_arrival_time" then o.earliest_estimated_arrival_time
  else if name = "latest_estimated_arrival_time" then o.latest_estimated_arrival_time
  else if name = "order_completion_time" then o.order_completion_time
  else none

/-- Python `order.get(flag, False)` for the six verification flags. -/
def Order.getFlag (o : Order) (name : String) : Bool :=
  if name = "is_restaurant_name_verified" then o.is_restaurant_name_verified
  else if name = "is_restaurant_address_verified" then o.is_restaurant_address_verified
  else if name = "is_order_placement_time_verified" then o.is_order_placement_time_verified
  else if name = "is_earliest_estimated_arrival_time_verified" then o.is_earliest_estimated_arrival_time_verified
  else if name = "is_latest_estimated_arrival_time_verified" then o.is_latest_estimated_arrival_time_verified
  else if name = "is_order_completion_time_verified" then o.is_order_completion_time_verified
  else false

/-- `UPDATE orders SET <name> = <v>` for a value column; names outside
the schema are silently dropped (`update_order` filters the update dict
against `SHOW COLUMNS`). -/
def Order.setField (o : Order) (name : String) (v : Option Value) : Order :=
  if name = "restaurant_name" then { o with restaurant_name := v }
  else if name = "restaurant_address" then { o with restaurant_address := v }
  else if name = "order_placement_time" then { o with order_placement_time := v }
  else if name = "earliest_estimated_arrival_time" then { o with earliest_estimated_arrival_time := v }
  else if name = "latest_estimated_arrival_time" then { o with latest_estimated_arrival_time := v }
  else if name = "order_completion_time" then { o with order_completion_time := v }
  else o

/-- `UPDATE orders SET <name> = <b>` for a flag column; unknown names
are silently dropped. -/
def Order.setFlag (o : Order) (name : String) (b : Bool) : Order :=
  if name = "is_restaurant_name_verified" then { o with is_restaurant_name_verified := b }
  else if name = "is_restaurant_address_verified" then { o with is_restaurant_address_verified := b }
  else if name = "is_order_placement_time_verified" then { o with is_order_placement_time_verified := b }
  else if name = "is_earliest_estimated_arrival_time_verified" then { o with is_earliest_estimated_arrival_time_verified := b }
  else if name = "is_latest_estimated_arrival_time_verified" then { o with is_latest_estimated_arrival_time_verified := b }
  else if name = "is_order_completion_time_verified" then { o with is_order_completion_time_verified := b }
  else o

/-- One entry of the partial-update dict handed to `update_order`. -/
inductive Upd where
  | uStatus (s : String)
  | uField (name : String) (v : Option Value)
  | uFlag (name : String) (b : Bool)
  | uPPath (p : String)
  | uCPath (p : String)
deriving DecidableEq

/-- Apply one update-dict entry to the record. -/
def applyUpd (o : Order) : Upd → Order
  | .uStatus s => { o with status := s }
  | .uField n v => o.setField n v
  | .uFlag n b => o.setFlag n b
  | .uPPath p => { o with placement_screenshot_path := some p }
  | .uCPath p => { o with completion_screenshot_path := some p }

/-- `update_order(channel_id, updates)`: the record-level effect of the
SQL `UPDATE` built from the (column-filtered) update dict.  Whether the
store accepted the write at all is modelled separately by a `storeOk`
flag at each call site. -/
def update_order (o : Order) (us : List Upd) : Order :=
  us.foldl applyUpd o

/-- Python truthiness of a nullable column value (`not order.get(field)`
in `check_for_missing_info`): `NULL`, the empty string and the integer 0
are falsy. -/
def truthy : Option Value → Bool
  | none => false
  | some (.vStr s) => !(s = "")
  | some (.vInt n) => !(n = 0)

/-- The fixed `verification_order` list of `get_next_unverified_field`. -/
def verification_order : List (String × String) :=
  [("restaurant_name", "is_restaurant_name_verified"),
   ("order_placement_time", "is_order_placement_time_verified"),
   ("earliest_estimated_arrival_time", "is_earliest_estimated_arrival_time_verified"),
   ("latest_estimated_arrival_time", "is_latest_estimated_arrival_time_verified"),
   ("order_completion_time", "is_order_completion_time_verified"),
   ("restaurant_address", "is_restaurant_address_verified")]

/-- The scanning loop of `get_next_unverified_field`: first pair whose
value is non-null and whose flag is false. -/
def scanNext (o : Order) : List (String × String) → Option (String × String)
  | [] => none
  | (f, fl) :: rest =>
    if (o.getField f).isSome && !(o.getFlag fl) then some (f, fl) else scanNext o rest

/-- `get_next_unverified_field(order)`; the Python `(None, None)` result
is `none`. -/
def get_next_unverified_field (o : Order) : Option (String × String) :=
  scanNext o verification_order

/-- The `required_fields` list of `check_for_missing_info` (everything
verifiable except `restaurant_address`). -/
def required_fields : List (String × String) :=
  [("restaurant_name", "is_restaurant_name_verified"),
   ("order_placement_time", "is_order_placement_time_verified"),
   ("earliest_estimated_arrival_time", "is_earliest_estimated_arrival_time_verified"),
   ("latest_estimated_arrival_time", "is_latest_estimated_arrival_time_verified"),
   ("order_completion_time", "is_order_completion_time_verified")]

/-- The `next` links of the `ORDER_STAGES` configuration dict;
`ORDER_STAGES.get(status, {}).get('next')` is `none` for `completed`
and for unknown statuses. -/
def stageNext (status : String) : Option String :=
  if status = "awaiting_app_selection" then some "awaiting_initial_screenshot"
  else if status = "awaiting_initial_screenshot" then some "verifying_initial_data"
  else if status = "verifying_initial_data" then some "awaiting_completion_screenshot"
  else if status = "awaiting_completion_screenshot" then some "verifying_completion_data"
  else if status = "verifying_completion_data" then some "collecting_missing_info"
  else if status = "collecting_missing_info" then some "completed"
  else none

/-- The `prompt` entries of `ORDER_STAGES` (the two verifying stages
have prompt `None`). -/
def stagePromptOpt (status : String) : Option String :=
  if status = "awaiting_app_selection" then some "Which delivery app did you use?"
  else if status = "awaiting_initial_screenshot" then
    some "Please upload your order confirmation screenshot"
  else if status = "awaiting_completion_screenshot" then
    some "Please upload screenshot showing order delivered time"
  else if status = "collecting_missing_info" then
    some "Lets check if we are missing anything"
  else none

/-- `check_for_missing_info(channel_id, client)`: filters
`required_fields` down to entries whose value is falsy and whose flag is
falsy; if any remain it emits one tagged input prompt per missing field,
otherwise it sets `status = 'completed'` (when the store accepts the
write) and posts the terminal message.  Returns (record after the call,
messages posted). -/
def check_for_missing_info (o : Order) (storeOk : Bool) : Order × List String :=
  let missing := required_fields.filter fun p => !(truthy (o.getField p.1)) && !(o.getFlag p.2)
  if missing.isEmpty then
    if storeOk then
      (update_order o [.uStatus "completed"],
       ["Thank you! Your order submission is complete."])
    else (o, [])
  else
    (o, "We are missing some information:" :: missing.map fun p => "input_prompt:missing_" ++ p.1)

/-- `handle_stage_completion(order, client)`: looks up the configured
`next` stage; when none is configured the flow is terminal and only the
completion message is posted; otherwise (when the store accepts the
write) `status` is set to the next stage, the progress indicator and the
next prompt are posted, and entering `collecting_missing_info`
immediately runs `check_for_missing_info`. -/
def handle_stage_completion (o : Order) (storeOk : Bool) : Order × List String :=
  match stageNext o.status with
  | none => (o, ["Thank you! Your order submission is complete."])
  | some nxt =>
    if storeOk then
      let o2 := update_order o [.uStatus nxt]
      let baseMsgs := ["progress_status"] ++
        (match stagePromptOpt nxt with
         | some p => ["Next Step: " ++ p]
         | none => [])
      if nxt = "collecting_missing_info" then
        let r := check_for_missing_info o2 storeOk
        (r.1, baseMsgs ++ r.2)
      else (o2, baseMsgs)
    else (o, [])

/-- `start_field_verification(channel_id, client)` for a loaded order:
asks about the next unverified field with a value, or, when none
remains, hands over to `handle_stage_completion`. -/
def start_field_verification (o : Order) (storeOk : Bool) : Order × List String :=
  match get_next_unverified_field o with
  | some (f, _) => (o, ["verify_prompt:" ++ f])
  | none => handle_stage_completion o storeOk

/-- The `verify_field_yes` action handler: sets the verification flag
named in the button value to true (when the store accepts the write) and
continues the verification cycle.  The Python handler splits the button
value `"field|flag"`; the two components are the parameters here. -/
def handle_verification_yes (o : Order) (_field flag : String) (storeOk : Bool) :
    Order × List String :=
  if storeOk then
    let o2 := update_order o [.uFlag flag true]
    start_field_verification o2 storeOk
  else (o, [])

/-- Characters matched by the regex class `\s` (as relevant here). -/
def isWsChar (c : Char) : Bool :=
  c = ' ' || c = '\t' || c = '\n' || c = '\r'

/-- `a.startsWith b` on character lists. -/
def listStarts : List Char → List Char → Bool
  | _, [] => true
  | [], _ :: _ => false
  | a :: as, b :: bs => a = b && listStarts as bs

/-- Substring containment, Python `pat in s`. -/
def listHasSub (s pat : List Char) : Bool :=
  match s with
  | [] => pat.isEmpty
  | _ :: rest => listStarts s pat || listHasSub rest pat

/-- Python `pat in s` on strings. -/
def pyContains (s pat : String) : Bool :=
  listHasSub s.toList pat.toList

/-- Python `s.endswith(pat)`. -/
def pyEndsWith (s pat : String) : Bool :=
  listStarts s.toList.reverse pat.toList.reverse

/-- One pass of Python `s.replace(pat, rep)` with fuel (the fuel is the
length of the list, enough since every step consumes at least one
character). -/
def listReplaceAux : Nat → List Char → List Char → List Char → List Char
  | 0, s, _, _ => s
  | _ + 1, [], _, _ => []
  | n + 1, c :: rest, pat, rep =>
    if !pat.isEmpty && listStarts (c :: rest) pat then
      rep ++ listReplaceAux n ((c :: rest).drop pat.length) pat rep
    else
      c :: listReplaceAux n rest pat rep

/-- Python `s.replace(pat, rep)` (all non-overlapping occurrences,
left to right). -/
def pyReplace (s pat rep : String) : String :=
  ⟨listReplaceAux s.toList.length s.toList pat.toList rep.toList⟩

/-- `block_id.replace("correct_", "").replace("missing_", "")` in
`handle_user_input`: the field the submitted input belongs to. -/
def blockField (block_id : String) : String :=
  pyReplace (pyReplace block_id "correct_" "") "missing_" ""

/-- `"missing_" in block_id` in `handle_user_input`. -/
def blockIsMissing (block_id : String) : Bool :=
  pyContains block_id "missing_"

/-- The shared tail of `handle_user_input` once the update value for the
field is known: a missing-tagged input additionally sets the field's
verification flag, then the update dict is written and the appropriate
continuation runs (nothing further happens when the store write is not
accepted, mirroring the bare `if update_order(...)`). -/
def huiApply (o : Order) (field : String) (isMissing : Bool) (u : Upd) (storeOk : Bool) :
    Order × List String :=
  let updates := if isMissing then [u, .uFlag ("is_" ++ field ++ "_verified") true] else [u]
  if storeOk then
    let o2 := update_order o updates
    if isMissing then check_for_missing_info o2 storeOk
    else start_field_verification o2 storeOk
  else (o, [])

/-- The `process_input` action handler (`handle_user_input`): extracts
the field from the input block id; for a time-typed field a falsy parse
result (`None`, or 0 by Python truthiness) is reported as an invalid
time and nothing is mutated; otherwise the field value (and, for
missing-tagged blocks, its verification flag) is written.  `parsed` is
the outcome of `parse_human_time_to_unix` on the submitted text. -/
def handle_user_input (o : Order) (block_id raw : String) (parsed : Option Int)
    (storeOk : Bool) : Order × List String :=
  let field := blockField block_id
  let isMissing := blockIsMissing block_id
  if pyEndsWith field "_time" then
    match parsed with
    | none => (o, ["Invalid time format. Please use HH:MM (24-hour format)"])
    | some t =>
      if t = 0 then (o, ["Invalid time format. Please use HH:MM (24-hour format)"])
      else huiApply o field isMissing (.uField field (some (.vInt t))) storeOk
  else huiApply o field isMissing (.uField field (some (.vStr raw))) storeOk

/-- The `restart_order` action handler: a single-column update setting
`status` back to `awaiting_app_selection`; no other column appears in
the update dict. -/
def handle_restart_order (o : Order) (storeOk : Bool) : Order × List String :=
  if storeOk then
    (update_order o [.uStatus "awaiting_app_selection"],
     ["Order has been restarted.", "Which delivery app did you use?"])
  else (o, ["Sorry, I could not restart the order. Please try again."])

/-- The six-key dict returned by `gemini_process_image`, matching the
database schema (`gemini.py` docstring). -/
structure ExtractResult where
  restaurant_name : Option String
  restaurant_address : Option String
  order_placement_time : Option Int
  earliest_estimated_arrival_time : Option Int
  latest_estimated_arrival_time : Option Int
  order_completion_time : Option Int
deriving DecidableEq

/-- The all-`None` dict produced on the exception path of
`gemini_process_image`. -/
def allNoneExtract : ExtractResult :=
  ⟨none, none, none, none, none, none⟩

/-- `gemini_process_image(image_path, image_stage)`.  The fallible
internal steps (opening the image, the three backend extraction calls)
are passed as `Except` outcomes; any raised exception inside the `try`
is caught and yields the all-`None` dict.  The stage-specific extraction
only happens on the two known stage strings; any other stage returns
just the restaurant info, exactly as the `if`/`elif` chain does. -/
def gemini_process_image (openImg : Except String Unit)
    (restInfo : Except String (Option String × Option String))
    (initTimes : Except String (Option Int × Option Int × Option Int))
    (complTime : Except String (Option Int)) (image_stage : String) : ExtractResult :=
  let body : Except String ExtractResult := do
    let _ ← openImg
    let ri ← restInfo
    let base : ExtractResult :=
      { allNoneExtract with restaurant_name := ri.1, restaurant_address := ri.2 }
    if image_stage = "awaiting_placement_time" then
      let td ← initTimes
      pure { base with
        order_placement_time := td.1,
        earliest_estimated_arrival_time := td.2.1,
        latest_estimated_arrival_time := td.2.2 }
    else if image_stage = "awaiting_arrival_time" then
      let ct ← complTime
      pure { base with order_completion_time := ct }
    else
      pure base
  match body with
  | .ok r => r
  | .error _ => allNoneExtract

/-- The mimetype and size of an uploaded Slack file. -/
structure FileMeta where
  mimetype : String
  size : Nat
deriving DecidableEq

/-- `allowed_mimetypes` in `process_image`. -/
def allowed_mimetypes : List String :=
  ["image/png", "image/jpeg", "image/jpg"]

/-- `max_size_mb * 1024 * 1024` in `process_image`. -/
def max_size_bytes : Nat := 5 * 1024 * 1024

/-- The outcome of `process_image`: the record after the call (`none`
when no order exists for the channel), the messages posted, and whether
the extraction adapter (`gemini_process_image`) was invoked. -/
structure PIRes where
  orderAfter : Option Order
  messages : List String
  extractionCalled : Bool
deriving DecidableEq

/-- `process_image(channel_id, file)`: validates mimetype then size and
rejects with a message before anything else happens; loads the order;
inside the `try`, a failed Slack download raises (caught, error message,
nothing written).  The stage is derived from `status`
(`awaiting_initial_screenshot` is the placement branch, everything else
takes the completion-shaped update dict), the extraction result is
merged into the record together with the advanced `verifying_*` status,
and on a successful write the verification cycle starts; a rejected
write raises, which the handler reports without mutating the record.
`extracted` stands for the (total, see `gemini_process_image`) adapter
result. -/
def process_image (file : FileMeta) (orderOpt : Option Order) (downloadOk : Bool)
    (extracted : ExtractResult) (filepath : String) (storeOk : Bool) : PIRes :=
  if !(allowed_mimetypes.contains file.mimetype) then
    ⟨orderOpt, ["Only PNG/JPEG images under 5MB are allowed."], false⟩
  else if max_size_bytes < file.size then
    ⟨orderOpt, ["Image too large. Max size: 5MB."], false⟩
  else
    match orderOpt with
    | none => ⟨none, ["Order not found"], false⟩
    | some o =>
      if !downloadOk then ⟨some o, ["Error processing image"], false⟩
      else
        let updates :=
          if o.status = "awaiting_initial_screenshot" then
            [Upd.uStatus "verifying_initial_data",
             Upd.uPPath filepath,
             Upd.uField "restaurant_name" (extracted.restaurant_name.map .vStr),
             Upd.uField "order_placement_time" (extracted.order_placement_time.map .vInt),
             Upd.uField "earliest_estimated_arrival_time"
               (extracted.earliest_estimated_arrival_time.map .vInt),
             Upd.uField "latest_estimated_arrival_time"
               (extracted.latest_estimated_arrival_time.map .vInt)]
          else
            [Upd.uStatus "verifying_completion_data",
             Upd.uCPath filepath,
             Upd.uField "order_completion_time" (extracted.order_completion_time.map .vInt)]
        if storeOk then
          let r := start_field_verification (update_order o updates) storeOk
          ⟨some r.1, r.2, true⟩
        else ⟨some o, ["Error processing image"], true⟩

/-- `create_order(user_id, channel_id)`: the insert either succeeds and
returns the auto-incremented id, or any database exception is caught and
`None` is returned. -/
def create_order (dbOk : Bool) (newId : Nat) : Option Nat :=
  if dbOk then some newId else none

/-- What `create_channel` hands back to its caller. -/
inductive CCResult where
  | ok (order_id : Nat) (channel_id : String)
  | slackFail
  | uncaught (msg : String)
deriving DecidableEq

/-- The observable outcome of `create_channel`: the value delivered to
the caller, and which of the two artifacts exist afterwards. -/
structure CCOutcome where
  result : CCResult
  channelCreated : Bool
  orderRecordCreated : Bool
deriving DecidableEq

/-- `create_channel(user_id)`: creates the Slack channel, then the order
record, then invites the user.  The surrounding `try` catches only
`SlackApiError` (returning `(None, None)`); the generic
`Exception("Failed to create order record")` raised when `create_order`
returns a falsy id is NOT a `SlackApiError` and propagates to the
caller, with the already-created channel left in place. -/
def create_channel (convCreateOk : Bool) (channel_id : String) (dbOk : Bool)
    (newId : Nat) (inviteOk : Bool) : CCOutcome :=
  if !convCreateOk then ⟨.slackFail, false, false⟩
  else
    match create_order dbOk newId with
    | none => ⟨.uncaught "Failed to create order record", true, false⟩
    | some oid =>
      if oid = 0 then ⟨.uncaught "Failed to create order record", true, true⟩
      else if !inviteOk then ⟨.slackFail, true, true⟩
      else ⟨.ok oid channel_id, true, true⟩

/-- Python `s.strip()` on a character list. -/
def listStrip (s : List Char) : List Char :=
  ((s.dropWhile isWsChar).reverse.dropWhile isWsChar).reverse

/-- Python `s.lower()` on a character list (the candidate strings here
are ASCII). -/
def listLower (s : List Char) : List Char :=
  s.map Char.toLower

/-- Attempt to match the regex `\s*[AP]M` at the head of the list
(greedy whitespace, then an UPPERCASE `A` or `P` followed by an
UPPERCASE `M`, the pattern being applied without `re.IGNORECASE`);
returns the remainder after the match. -/
def tryAmPmUpper (s : List Char) : Option (List Char) :=
  match s.dropWhile isWsChar with
  | 'A' :: 'M' :: r => some r
  | 'P' :: 'M' :: r => some r
  | _ => none

/-- `re.sub(r"\s*[AP]M", "", s)`: scan left to right, removing each
match, advancing one character where no match starts (fuel-indexed; the
list length is enough fuel since every step consumes a character). -/
def subAmPmUpperAux : Nat → List Char → List Char
  | 0, s => s
  | _ + 1, [] => []
  | n + 1, c :: rest =>
    match tryAmPmUpper (c :: rest) with
    | some r => subAmPmUpperAux n r
    | none => c :: subAmPmUpperAux n rest

/-- `re.sub(r"\s*[AP]M", "", s)` on a string. -/
def subAmPmUpper (s : String) : String :=
  ⟨subAmPmUpperAux s.toList.length s.toList⟩

/-- The dedup key of `process_gemini_response`:
`re.sub(r"\s*[AP]M", "", time_str.strip().lower()).strip()`.  Note the
order of operations in the source: the string is lowercased BEFORE the
uppercase-only `[AP]M` substitution runs. -/
def pyNormalize (s : String) : String :=
  ⟨listStrip (subAmPmUpper ⟨listLower (listStrip s.toList)⟩).toList⟩

/-- `re.search(r"([AP]M)", time_str, re.IGNORECASE)`: the first AM/PM
marker in the string, with `.group(1).upper()` applied — `some 'A'`
for an AM marker, `some 'P'` for a PM marker. -/
def findAmPmMarker : List Char → Option Char
  | [] => none
  | a :: rest =>
    if (a = 'A' || a = 'a') &&
        (match rest with | m :: _ => m = 'M' || m = 'm' | [] => false) then some 'A'
    else if (a = 'P' || a = 'p') &&
        (match rest with | m :: _ => m = 'M' || m = 'm' | [] => false) then some 'P'
    else findAmPmMarker rest

/-- The loop state of the dedup/vote pass of `process_gemini_response`. -/
structure VoteState where
  seen : List String
  uniqueTimes : List String
  amCount : Nat
  pmCount : Nat
deriving DecidableEq

/-- One iteration of the dedup loop: skip a candidate whose normalized
key was already seen; otherwise keep it (first occurrence wins) and, if
it carries an explicit AM/PM marker, count the marker. -/
def dedupStep (norm : String → String) (st : VoteState) (t : String) : VoteState :=
  let n := norm t
  if st.seen.contains n then st
  else
    let st2 := { st with seen := st.seen ++ [n], uniqueTimes := st.uniqueTimes ++ [t] }
    match findAmPmMarker t.toList with
    | some 'A' => { st2 with amCount := st2.amCount + 1 }
    | some _ => { st2 with pmCount := st2.pmCount + 1 }
    | none => st2

/-- The dedup/vote pass over the extracted candidate list, parametrised
by the normalization used as dedup key. -/
def dedupVote (norm : String → String) (ts : List String) : VoteState :=
  ts.foldl (dedupStep norm) ⟨[], [], 0, 0⟩

/-- The dedup/vote pass exactly as `process_gemini_response` runs it. -/
def codeDedupVote (ts : List String) : VoteState :=
  dedupVote pyNormalize ts

/-- `dominant_am_pm` of `process_gemini_response`: the strict-majority
marker among the kept candidates, `none` on a tie. -/
def dominantOf (st : VoteState) : Option String :=
  if st.pmCount < st.amCount then some "AM"
  else if st.amCount < st.pmCount then some "PM"
  else none

/-- The dominant AM/PM hint as the code computes it. -/
def codeDominantAmPm (ts : List String) : Option String :=
  dominantOf (codeDedupVote ts)

/-- Modelled from the spec: the dedup key the specification describes —
"normalized-lowercase text with AM/PM markers stripped".  Markers are
stripped case-insensitively (matching after lowercasing), then the
string is trimmed. -/
def tryAmPmAnyCase (s : List Char) : Option (List Char) :=
  match s.dropWhile isWsChar with
  | a :: m :: r =>
    if (a = 'A' || a = 'a' || a = 'P' || a = 'p') && (m = 'M' || m = 'm') then some r
    else none
  | _ => none

/-- Modelled from the spec: strip every AM/PM marker, any case. -/
def subAmPmAnyCaseAux : Nat → List Char → List Char
  | 0, s => s
  | _ + 1, [] => []
  | n + 1, c :: rest =>
    match tryAmPmAnyCase (c :: rest) with
    | some r => subAmPmAnyCaseAux n r
    | none => c :: subAmPmAnyCaseAux n rest

/-- Modelled from the spec: the dedup key the spec sentence describes. -/
def specNormalize (s : String) : String :=
  ⟨listStrip (subAmPmAnyCaseAux (listLower (listStrip s.toList)).length
      (listLower (listStrip s.toList)))⟩

/-- Modelled from the spec: the dedup/vote pass with the spec's key. -/
def specDedupVote (ts : List String) : VoteState :=
  dedupVote specNormalize ts

/-- Modelled from the spec: the dominant hint over the spec's dedup. -/
def specDominantAmPm (ts : List String) : Option String :=
  dominantOf (specDedupVote ts)

/-- The data-model invariant of the spec: each verification flag is true
only if its field holds a non-null value. -/
def flagInvariant (o : Order) : Bool :=
  (!o.is_restaurant_name_verified || o.restaurant_name.isSome) &&
  (!o.is_restaurant_address_verified || o.restaurant_address.isSome) &&
  (!o.is_order_placement_time_verified || o.order_placement_time.isSome) &&
  (!o.is_earliest_estimated_arrival_time_verified || o.earliest_estimated_arrival_time.isSome) &&
  (!o.is_latest_estimated_arrival_time_verified || o.latest_estimated_arrival_time.isSome) &&
  (!o.is_order_completion_time_verified || o.order_completion_time.isSome)

/-- The spec's worked example for `next_unverified`: `restaurant_name`
set to `"X"` and unverified, every other field null. -/
def exOrderC2 : Order :=
  { status := "verifying_initial_data", app_used := none,
    restaurant_name := some (.vStr "X"), restaurant_address := none,
    order_placement_time := none, earliest_estimated_arrival_time := none,
    latest_estimated_arrival_time := none, order_completion_time := none,
    is_restaurant_name_verified := false, is_restaurant_address_verified := false,
    is_order_placement_time_verified := false,
    is_earliest_estimated_arrival_time_verified := false,
    is_latest_estimated_arrival_time_verified := false,
    is_order_completion_time_verified := false,
    placement_screenshot_path := none, completion_screenshot_path := none }

/-- A fresh order waiting for its first screenshot. -/
def freshAwaitingOrder : Order :=
  { exOrderC2 with
    status := "awaiting_initial_screenshot",
    app_used := some "uber", restaurant_name := none }

/-- An order in `verifying_completion_data` whose completion time has
already been extracted and confirmed (all required fields set and
verified, address never extracted). -/
def verifiedCompletionOrder : Order :=
  { status := "verifying_completion_data", app_used := some "uber",
    restaurant_name := some (.vStr "X"), restaurant_address := none,
    order_placement_time := some (.vInt 10),
    earliest_estimated_arrival_time := some (.vInt 20),
    latest_estimated_arrival_time := some (.vInt 30),
    order_completion_time := some (.vInt 40),
    is_restaurant_name_verified := true, is_restaurant_address_verified := false,
    is_order_placement_time_verified := true,
    is_earliest_estimated_arrival_time_verified := true,
    is_latest_estimated_arrival_time_verified := true,
    is_order_completion_time_verified := true,
    placement_screenshot_path := some "p.png", completion_screenshot_path := some "c.png" }

/-- The spec's backfill example: an order entering
`collecting_missing_info` with `order_completion_time` null and
unverified and every other required field set and verified. -/
def backfillExampleOrder : Order :=
  { verifiedCompletionOrder with
    status := "collecting_missing_info",
    order_completion_time := none,
    is_order_completion_time_verified := false }

/-- The four time-typed verifiable field names (those for which
`field.endswith('_time')` holds in `handle_user_input`). -/
def timeFieldNames : List String :=
  ["order_placement_time", "earliest_estimated_arrival_time",
   "latest_estimated_arrival_time", "order_completion_time"]

/-- A single-column status update is exactly a status replacement. -/
theorem update_status_eq (o : Order) (s : String) :
    update_order o [.uStatus s] = { o with status := s } := rfl

@[simp] theorem update_order_nil (o : Order) : update_order o [] = o := rfl

@[simp] theorem update_order_cons (o : Order) (u : Upd) (us : List Upd) :
    update_order o (u :: us) = update_order (applyUpd o u) us := rfl

@[simp] theorem getField_rn (o : Order) :
    o.getField "restaurant_name" = o.restaurant_name := rfl

@[simp] theorem getField_ra (o : Order) :
    o.getField "restaurant_address" = o.restaurant_address := rfl

@[simp] theorem getField_opt (o : Order) :
    o.getField "order_placement_time" = o.order_placement_time := rfl

@[simp] theorem getField_eat (o : Order) :
    o.getField "earliest_estimated_arrival_time" = o.earliest_estimated_arrival_time := rfl

@[simp] theorem getField_lat (o : Order) :
    o.getField "latest_estimated_arrival_time" = o.latest_estimated_arrival_time := rfl

@[simp] theorem getField_oct (o : Order) :
    o.getField "order_completion_time" = o.order_completion_time := rfl

@[simp] theorem getFlag_rn (o : Order) :
    o.getFlag "is_restaurant_name_verified" = o.is_restaurant_name_verified := rfl

@[simp] theorem getFlag_ra (o : Order) :
    o.getFlag "is_restaurant_address_verified" = o.is_restaurant_address_verified := rfl

@[simp] theorem getFlag_opt (o : Order) :
    o.getFlag "is_order_placement_time_verified" = o.is_order_placement_time_verified := rfl

@[simp] theorem getFlag_eat (o : Order) :
    o.getFlag "is_earliest_estimated_arrival_time_verified" =
      o.is_earliest_estimated_arrival_time_verified := rfl

@[simp] theorem getFlag_lat (o : Order) :
    o.getFlag "is_latest_estimated_arrival_time_verified" =
      o.is_latest_estimated_arrival_time_verified := rfl

@[simp] theorem getFlag_oct (o : Order) :
    o.getFlag "is_order_completion_time_verified" =
      o.is_order_completion_time_verified := rfl

@[simp] theorem setField_rn (o : Order) (v : Option Value) :
    o.setField "restaurant_name" v = { o with restaurant_name := v } := rfl

@[simp] theorem setField_ra (o : Order) (v : Option Value) :
    o.setField "restaurant_address" v = { o with restaurant_address := v } := rfl

@[simp] theorem setField_opt (o : Order) (v : Option Value) :
    o.setField "order_placement_time" v = { o with order_placement_time := v } := rfl

@[simp] theorem setField_eat (o : Order) (v : Option Value) :
    o.setField "earliest_estimated_arrival_time" v =
      { o with earliest_estimated_arrival_time := v } := rfl

@[simp] theorem setField_lat (o : Order) (v : Option Value) :
    o.setField "latest_estimated_arrival_time" v =
      { o with latest_estimated_arrival_time := v } := rfl

@[simp] theorem setField_oct (o : Order) (v : Option Value) :
    o.setField "order_completion_time" v = { o with order_completion_time := v } := rfl

@[simp] theorem setFlag_rn (o : Order) (b : Bool) :
    o.setFlag "is_restaurant_name_verified" b =
      { o with is_restaurant_name_verified := b } := rfl

@[simp] theorem setFlag_ra (o : Order) (b : Bool) :
    o.setFlag "is_restaurant_address_verified" b =
      { o with is_restaurant_address_verified := b } := rfl

@[simp] theorem setFlag_opt (o : Order) (b : Bool) :
    o.setFlag "is_order_placement_time_verified" b =
      { o with is_order_placement_time_verified := b } := rfl

@[simp] theorem setFlag_eat (o : Order) (b : Bool) :
    o.setFlag "is_earliest_estimated_arrival_time_verified" b =
      { o with is_earliest_estimated_arrival_time_verified := b } := rfl

@[simp] theorem setFlag_lat (o : Order) (b : Bool) :
    o.setFlag "is_latest_estimated_arrival_time_verified" b =
      { o with is_latest_estimated_arrival_time_verified := b } := rfl

@[simp] theorem setFlag_oct (o : Order) (b : Bool) :
    o.setFlag "is_order_completion_time_verified" b =
      { o with is_order_completion_time_verified := b } := rfl

/-- `check_for_missing_info` only ever touches the `status` column. -/
theorem cfmi_shape (o : Order) (k : Bool) :
    ∃ st, (check_for_missing_info o k).1 = { o with status := st } := by
  simp only [check_for_missing_info]
  split
  · split
    · exact ⟨"completed", rfl⟩
    · exact ⟨o.status, rfl⟩
  · exact ⟨o.status, rfl⟩

/-- `handle_stage_completion` only ever touches the `status` column. -/
theorem hsc_shape (o : Order) (k : Bool) :
    ∃ st, (handle_stage_completion o k).1 = { o with status := st } := by
  simp only [handle_stage_completion]
  cases stageNext o.status with
  | none => exact ⟨o.status, rfl⟩
  | some nxt =>
    simp only
    split
    · split
      · obtain ⟨st, hst⟩ := cfmi_shape (update_order o [.uStatus nxt]) k
        exact ⟨st, hst⟩
      · exact ⟨nxt, rfl⟩
    · exact ⟨o.status, rfl⟩

/-- `start_field_verification` only ever touches the `status` column. -/
theorem sfv_shape (o : Order) (k : Bool) :
    ∃ st, (start_field_verification o k).1 = { o with status := st } := by
  simp only [start_field_verification]
  cases h : get_next_unverified_field o with
  | none => exact hsc_shape o k
  | some p => exact ⟨o.status, by obtain ⟨f, fl⟩ := p; rfl⟩

/-- The invariant does not depend on `status`. -/
theorem flagInvariant_status (o : Order) (s : String) :
    flagInvariant { o with status := s } = flagInvariant o := rfl

/-- C2: `get_next_unverified_field` scans the fixed field order
(restaurant_name, order_placement_time, earliest_estimated_arrival_time,
latest_estimated_arrival_time, order_completion_time,
restaurant_address) and returns the first (field, flag) pair whose
stored value is non-null and whose verification flag is false, skipping
fields without a value, and `none` (Python `(None, None)`) when no such
field exists; on the spec's example record (restaurant_name = "X"
unverified, all else null) it returns
("restaurant_name", "is_restaurant_name_verified"). -/
theorem next_unverified_scans_fixed_order :
    (∀ o : Order,
      get_next_unverified_field o =
        (if o.restaurant_name.isSome && !o.is_restaurant_name_verified then
          some ("restaurant_name", "is_restaurant_name_verified")
        else if o.order_placement_time.isSome && !o.is_order_placement_time_verified then
          some ("order_placement_time", "is_order_placement_time_verified")
        else if o.earliest_estimated_arrival_time.isSome &&
            !o.is_earliest_estimated_arrival_time_verified then
          some ("earliest_estimated_arrival_time",
            "is_earliest_estimated_arrival_time_verified")
        else if o.latest_estimated_arrival_time.isSome &&
            !o.is_latest_estimated_arrival_time_verified then
          some ("latest_estimated_arrival_time",
            "is_latest_estimated_arrival_time_verified")
        else if o.order_completion_time.isSome && !o.is_order_completion_time_verified then
          some ("order_completion_time", "is_order_completion_time_verified")
        else if o.restaurant_address.isSome && !o.is_restaurant_address_verified then
          some ("restaurant_address", "is_restaurant_address_verified")
        else none)) ∧
    get_next_unverified_field exOrderC2 =
      some ("restaurant_name", "is_restaurant_name_verified") := by
  constructor
  · intro o
    rfl
  · rfl

/-- C9: `handle_restart_order` resets `status` to
`awaiting_app_selection` and leaves every other order column unchanged —
stored field values and verification flags are not cleared (the update
dict contains only the `status` key). -/
theorem restart_resets_status_only :
    ∀ o : Order,
      (handle_restart_order o true).1.status = "awaiting_app_selection" ∧
      (handle_restart_order o true).1.app_used = o.app_used ∧
      (handle_restart_order o true).1.restaurant_name = o.restaurant_name ∧
      (handle_restart_order o true).1.restaurant_address = o.restaurant_address ∧
      (handle_restart_order o true).1.order_placement_time = o.order_placement_time ∧
      (handle_restart_order o true).1.earliest_estimated_arrival_time =
        o.earliest_estimated_arrival_time ∧
      (handle_restart_order o true).1.latest_estimated_arrival_time =
        o.latest_estimated_arrival_time ∧
      (handle_restart_order o true).1.order_completion_time = o.order_completion_time ∧
      (handle_restart_order o true).1.is_restaurant_name_verified =
        o.is_restaurant_name_verified ∧
      (handle_restart_order o true).1.is_restaurant_address_verified =
        o.is_restaurant_address_verified ∧
      (handle_restart_order o true).1.is_order_placement_time_verified =
        o.is_order_placement_time_verified ∧
      (handle_restart_order o true).1.is_earliest_estimated_arrival_time_verified =
        o.is_earliest_estimated_arrival_time_verified ∧
      (handle_restart_order o true).1.is_latest_estimated_arrival_time_verified =
        o.is_latest_estimated_arrival_time_verified ∧
      (handle_restart_order o true).1.is_order_completion_time_verified =
        o.is_order_completion_time_verified ∧
      (handle_restart_order o true).1.placement_screenshot_path =
        o.placement_screenshot_path ∧
      (handle_restart_order o true).1.completion_screenshot_path =
        o.completion_screenshot_path := by
  intro o
  exact ⟨rfl, rfl, rfl, rfl, rfl, rfl, rfl, rfl, rfl, rfl, rfl, rfl, rfl, rfl, rfl, rfl⟩

/-- C6: an upload whose mimetype is outside {png, jpeg, jpg} or whose
size exceeds 5 MB is rejected by `process_image` before any extraction
call: the record is not mutated (in particular the stage is unchanged),
the extraction adapter is not invoked, and a rejection message is
posted. -/
theorem invalid_upload_rejected_before_extraction :
    ∀ (file : FileMeta) (orderOpt : Option Order) (dOk : Bool) (ex : ExtractResult)
      (fp : String) (sOk : Bool),
      (allowed_mimetypes.contains file.mimetype = false ∨ max_size_bytes < file.size) →
      (process_image file orderOpt dOk ex fp sOk).orderAfter = orderOpt ∧
      (process_image file orderOpt dOk ex fp sOk).extractionCalled = false ∧
      (process_image file orderOpt dOk ex fp sOk).messages ≠ [] := by
  intro file orderOpt dOk ex fp sOk h
  rcases h with h | h
  · have hmem : file.mimetype ∉ allowed_mimetypes := by simpa using h
    simp [process_image, hmem]
  · by_cases hm : file.mimetype ∈ allowed_mimetypes
    · simp [process_image, hm, h]
    · simp [process_image, hm]

/-- Witness for C6: a 6 MB PNG is rejected with no record mutation and
no extraction call. -/
theorem invalid_upload_rejected_witness :
    (process_image ⟨"image/png", 6 * 1024 * 1024⟩ (some freshAwaitingOrder) true
        allNoneExtract "p.png" true).orderAfter = some freshAwaitingOrder ∧
    (process_image ⟨"image/png", 6 * 1024 * 1024⟩ (some freshAwaitingOrder) true
        allNoneExtract "p.png" true).extractionCalled = false ∧
    (process_image ⟨"image/png", 6 * 1024 * 1024⟩ (some freshAwaitingOrder) true
        allNoneExtract "p.png" true).messages ≠ [] :=
  invalid_upload_rejected_before_extraction _ _ _ _ _ _ (Or.inr (by decide))

/-- Counterexample to C1 as stated: on an extraction-adapter failure
(`gemini_process_image` catches every backend exception and returns the
all-`None` dict, so its failure mode IS the all-`None` result) with the
store write succeeding, the status of a fresh order in
`awaiting_initial_screenshot` IS advanced — the merge writes
`verifying_initial_data`, and with no field values present the
verification cycle immediately completes the stage, landing on
`awaiting_completion_screenshot` rather than staying put. -/
theorem extraction_failure_still_advances :
    ((process_image ⟨"image/png", 100⟩ (some freshAwaitingOrder) true allNoneExtract
        "p.png" true).orderAfter.map Order.status) ≠
      some "awaiting_initial_screenshot" ∧
    ((process_image ⟨"image/png", 100⟩ (some freshAwaitingOrder) true allNoneExtract
        "p.png" true).orderAfter.map Order.status) =
      some "awaiting_completion_screenshot" := by
  constructor
  · decide
  · rfl

/-- C1 amended: a record-store failure during `submit_screenshot` aborts
the transition — the record (hence the stage) is unchanged and the
user-visible "Error processing image" message is produced, so
re-uploading retries from the same stage.  (An extraction failure does
not abort: the adapter returns the all-`None` dict and the flow still
advances, see the counterexample.) -/
theorem store_failure_aborts_submission :
    ∀ (file : FileMeta) (o : Order) (dOk : Bool) (ex : ExtractResult) (fp : String),
      allowed_mimetypes.contains file.mimetype = true →
      file.size ≤ max_size_bytes →
      (process_image file (some o) dOk ex fp false).orderAfter = some o ∧
      (process_image file (some o) dOk ex fp false).messages =
        ["Error processing image"] := by
  intro file o dOk ex fp hm hs
  have hmem : file.mimetype ∈ allowed_mimetypes := by simpa using hm
  have hs2 : ¬ (max_size_bytes < file.size) := not_lt.mpr hs
  cases dOk <;> simp [process_image, hmem, hs2]

/-- Witness for the amended C1. -/
theorem store_failure_aborts_witness :
    (process_image ⟨"image/png", 100⟩ (some freshAwaitingOrder) true allNoneExtract
        "p.png" false).orderAfter = some freshAwaitingOrder ∧
    (process_image ⟨"image/png", 100⟩ (some freshAwaitingOrder) true allNoneExtract
        "p.png" false).messages = ["Error processing image"] :=
  store_failure_aborts_submission _ _ _ _ _ (by decide) (by decide)

/-- Counterexample to C7 as stated: when channel creation succeeds and
the order-record insert fails, `create_channel` does NOT roll back — the
channel remains with no order record, and the generic exception raised
is not caught by the `except SlackApiError` handler, so no `(None,
None)` failure value reaches the caller either. -/
theorem create_channel_no_rollback :
    (create_channel true "C1" false 7 true).channelCreated = true ∧
    (create_channel true "C1" false 7 true).orderRecordCreated = false ∧
    (create_channel true "C1" false 7 true).result =
      .uncaught "Failed to create order record" :=
  ⟨rfl, rfl, rfl⟩

/-- C7 amended: when channel creation succeeds but the order record
cannot be created, `create_channel` raises an uncaught generic
exception, leaving the already-created channel in place with no order
record; only Slack API errors are caught and reported as the `(None,
None)` return. -/
theorem create_channel_record_failure_raises :
    ∀ (cid : String) (newId : Nat) (inviteOk : Bool),
      create_channel true cid false newId inviteOk =
        ⟨.uncaught "Failed to create order record", true, false⟩ := by
  intro cid newId inviteOk
  rfl

/-- C10: `gemini_process_image` is total (its Lean embedding returns an
`ExtractResult`, the record with exactly the six schema keys, each
possibly `none`); every internal exception — unreadable image, a failing
restaurant-info call, a failing time-extraction call in the stage that
uses it — yields the all-`None` dict, and an unrecognized stage string
raises nothing, returning just the restaurant info with all-`None`
times. -/
theorem gemini_never_raises_six_keys :
    (∀ (e : String) rI iT cT (stage : String),
        gemini_process_image (.error e) rI iT cT stage = allNoneExtract) ∧
    (∀ oI (e : String) iT cT (stage : String),
        gemini_process_image oI (.error e) iT cT stage = allNoneExtract) ∧
    (∀ oI rI cT (e : String),
        gemini_process_image oI rI (.error e) cT "awaiting_placement_time" =
          allNoneExtract) ∧
    (∀ oI rI iT (e : String),
        gemini_process_image oI rI iT (.error e) "awaiting_arrival_time" =
          allNoneExtract) ∧
    (∀ (name addr : Option String) iT cT (stage : String),
        stage ≠ "awaiting_placement_time" → stage ≠ "awaiting_arrival_time" →
        gemini_process_image (.ok ()) (.ok (name, addr)) iT cT stage =
          { allNoneExtract with restaurant_name := name, restaurant_address := addr }) := by
  refine ⟨?_, ?_, ?_, ?_, ?_⟩
  · intro e rI iT cT stage
    rfl
  · intro oI e iT cT stage
    cases oI <;> rfl
  · intro oI rI cT e
    cases oI <;> cases rI <;> rfl
  · intro oI rI iT e
    cases oI <;> cases rI <;> rfl
  · intro name addr iT cT stage h1 h2
    simp [gemini_process_image, h1, h2]
    rfl

/-- Witness for C10: an unrecognized stage string returns restaurant
info only, with no exception. -/
theorem gemini_never_raises_witness :
    gemini_process_image (.ok ()) (.ok (some "X", none)) (.ok (none, none, none))
        (.ok none) "final" =
      { allNoneExtract with restaurant_name := some "X", restaurant_address := none } :=
  gemini_never_raises_six_keys.2.2.2.2 (some "X") none _ _ "final"
    (by decide) (by decide)

/-- C8, evaluated at the failing input: the source lowercases the
candidate BEFORE running `re.sub(r"\s*[AP]M", "", ...)`, whose pattern
matches only uppercase markers, so the AM/PM markers are never stripped
from the dedup key.  On the candidate list
`["8:00 PM", "8:00", "8:00 AM"]` the code therefore keeps all three
candidates and the vote ties (no hint), whereas the documented
behaviour (markers stripped, first occurrence wins) would keep only
`"8:00 PM"` and produce the hint `PM`. -/
theorem dedup_marker_not_stripped :
    pyNormalize "8:00 PM" = "8:00 pm" ∧
    specNormalize "8:00 PM" = "8:00" ∧
    (codeDedupVote ["8:00 PM", "8:00", "8:00 AM"]).uniqueTimes =
      ["8:00 PM", "8:00", "8:00 AM"] ∧
    codeDominantAmPm ["8:00 PM", "8:00", "8:00 AM"] = none ∧
    (specDedupVote ["8:00 PM", "8:00", "8:00 AM"]).uniqueTimes = ["8:00 PM"] ∧
    specDominantAmPm ["8:00 PM", "8:00", "8:00 AM"] = some "PM" := by
  decide

/-- C4: for a correction submission (`correct_`-tagged input block) on a
time-typed field, a parse failure (falsy `parse_human_time_to_unix`
result) reports the invalid-time error and mutates nothing; on parse
success the field value is set but no verification flag changes (only
the missing-tagged backfill path sets the flag together with the
value). -/
theorem correction_time_field_no_flag :
    ∀ (o : Order) (f raw : String) (sOk : Bool),
      f ∈ timeFieldNames →
      handle_user_input o ("correct_" ++ f) raw none sOk =
        (o, ["Invalid time format. Please use HH:MM (24-hour format)"]) ∧
      (∀ t : Int, t ≠ 0 →
        (handle_user_input o ("correct_" ++ f) raw (some t) true).1.getField f =
          some (.vInt t) ∧
        (handle_user_input o ("correct_" ++ f) raw (some t) true).1.is_restaurant_name_verified =
          o.is_restaurant_name_verified ∧
        (handle_user_input o ("correct_" ++ f) raw (some t) true).1.is_restaurant_address_verified =
          o.is_restaurant_address_verified ∧
        (handle_user_input o ("correct_" ++ f) raw (some t) true).1.is_order_placement_time_verified =
          o.is_order_placement_time_verified ∧
        (handle_user_input o ("correct_" ++ f) raw (some t) true).1.is_earliest_estimated_arrival_time_verified =
          o.is_earliest_estimated_arrival_time_verified ∧
        (handle_user_input o ("correct_" ++ f) raw (some t) true).1.is_latest_estimated_arrival_time_verified =
          o.is_latest_estimated_arrival_time_verified ∧
        (handle_user_input o ("correct_" ++ f) raw (some t) true).1.is_order_completion_time_verified =
          o.is_order_completion_time_verified) := by
  intro o f raw sOk hf
  fin_cases hf
  · refine ⟨rfl, ?_⟩
    intro t ht
    have h0 : handle_user_input o ("correct_" ++ "order_placement_time") raw (some t) true =
        if t = 0 then (o, ["Invalid time format. Please use HH:MM (24-hour format)"])
        else start_field_verification { o with order_placement_time := some (.vInt t) } true := rfl
    rw [h0, if_neg ht]
    obtain ⟨st, hst⟩ := sfv_shape { o with order_placement_time := some (.vInt t) } true
    rw [hst]
    exact ⟨rfl, rfl, rfl, rfl, rfl, rfl, rfl⟩
  · refine ⟨rfl, ?_⟩
    intro t ht
    have h0 : handle_user_input o ("correct_" ++ "earliest_estimated_arrival_time") raw
          (some t) true =
        if t = 0 then (o, ["Invalid time format. Please use HH:MM (24-hour format)"])
        else start_field_verification
          { o with earliest_estimated_arrival_time := some (.vInt t) } true := rfl
    rw [h0, if_neg ht]
    obtain ⟨st, hst⟩ :=
      sfv_shape { o with earliest_estimated_arrival_time := some (.vInt t) } true
    rw [hst]
    exact ⟨rfl, rfl, rfl, rfl, rfl, rfl, rfl⟩
  · refine ⟨rfl, ?_⟩
    intro t ht
    have h0 : handle_user_input o ("correct_" ++ "latest_estimated_arrival_time") raw
          (some t) true =
        if t = 0 then (o, ["Invalid time format. Please use HH:MM (24-hour format)"])
        else start_field_verification
          { o with latest_estimated_arrival_time := some (.vInt t) } true := rfl
    rw [h0, if_neg ht]
    obtain ⟨st, hst⟩ :=
      sfv_shape { o with latest_estimated_arrival_time := some (.vInt t) } true
    rw [hst]
    exact ⟨rfl, rfl, rfl, rfl, rfl, rfl, rfl⟩
  · refine ⟨rfl, ?_⟩
    intro t ht
    have h0 : handle_user_input o ("correct_" ++ "order_completion_time") raw (some t) true =
        if t = 0 then (o, ["Invalid time format. Please use HH:MM (24-hour format)"])
        else start_field_verification { o with order_completion_time := some (.vInt t) } true := rfl
    rw [h0, if_neg ht]
    obtain ⟨st, hst⟩ := sfv_shape { o with order_completion_time := some (.vInt t) } true
    rw [hst]
    exact ⟨rfl, rfl, rfl, rfl, rfl, rfl, rfl⟩

/-- Witness for C4 at a concrete order and time value. -/
theorem correction_time_field_witness :
    handle_user_input verifiedCompletionOrder ("correct_" ++ "order_placement_time") "x"
        none true =
      (verifiedCompletionOrder,
       ["Invalid time format. Please use HH:MM (24-hour format)"]) ∧
    (handle_user_input verifiedCompletionOrder ("correct_" ++ "order_placement_time") "x"
        (some 77) true).1.getField "order_placement_time" = some (.vInt 77) ∧
    (handle_user_input verifiedCompletionOrder ("correct_" ++ "order_placement_time") "x"
        (some 77) true).1.is_order_placement_time_verified =
      verifiedCompletionOrder.is_order_placement_time_verified := by
  have h := correction_time_field_no_flag verifiedCompletionOrder "order_placement_time"
    "x" true (by decide)
  exact ⟨h.1, (h.2 77 (by decide)).1, (h.2 77 (by decide)).2.2.2.1⟩

/-- C3: the missing-field backfill iterates exactly the verifiable
fields minus `restaurant_address`; it prompts (with the `missing` tag)
for every field that is both null and unverified; when zero missing
fields remain the status advances to `completed` with the terminal
message; and a successful missing-tagged input sets both the field value
and its verification flag (shown for the four time fields and for
`restaurant_name`). -/
theorem backfill_required_subset :
    required_fields = verification_order.filter (fun p => p.1 != "restaurant_address") ∧
    (∀ (o : Order) (sOk : Bool) (f fl : String), (f, fl) ∈ required_fields →
        o.getField f = none → o.getFlag fl = false →
        ("input_prompt:missing_" ++ f) ∈ (check_for_missing_info o sOk).2) ∧
    (∀ o : Order,
        required_fields.filter
            (fun p => !(truthy (o.getField p.1)) && !(o.getFlag p.2)) = [] →
        (check_for_missing_info o true).1.status = "completed" ∧
        "Thank you! Your order submission is complete." ∈
          (check_for_missing_info o true).2) ∧
    (∀ (o : Order) (f fl raw : String) (t : Int), (f, fl) ∈ required_fields →
        pyEndsWith f "_time" = true → t ≠ 0 →
        (handle_user_input o ("missing_" ++ f) raw (some t) true).1.getField f =
          some (.vInt t) ∧
        (handle_user_input o ("missing_" ++ f) raw (some t) true).1.getFlag fl = true) ∧
    (∀ (o : Order) (raw : String) (pr : Option Int),
        (handle_user_input o ("missing_" ++ "restaurant_name") raw pr true).1.getField
          "restaurant_name" = some (.vStr raw) ∧
        (handle_user_input o ("missing_" ++ "restaurant_name") raw pr true).1.getFlag
          "is_restaurant_name_verified" = true) := by
  refine ⟨by decide, ?_, ?_, ?_, ?_⟩
  · intro o sOk f fl hmem hval hflag
    have hin : (f, fl) ∈ required_fields.filter
        (fun p => !(truthy (o.getField p.1)) && !(o.getFlag p.2)) :=
      List.mem_filter.mpr ⟨hmem, by simp [hval, hflag, truthy]⟩
    simp only [check_for_missing_info]
    cases hl : required_fields.filter
        (fun p => !(truthy (o.getField p.1)) && !(o.getFlag p.2)) with
    | nil => rw [hl] at hin; exact absurd hin (List.not_mem_nil _)
    | cons a l =>
      rw [hl] at hin
      simp only [hl, List.isEmpty_cons, Bool.false_eq_true, if_false]
      exact List.mem_cons_of_mem _ (List.mem_map.mpr ⟨(f, fl), hin, rfl⟩)
  · intro o h
    simp only [check_for_missing_info, h, List.isEmpty_nil, if_true]
    exact ⟨rfl, List.mem_singleton.mpr rfl⟩
  · intro o f fl raw t hmem he ht
    fin_cases hmem
    · exact absurd he (by decide)
    · have h0 : handle_user_input o ("missing_" ++ "order_placement_time") raw
            (some t) true =
          if t = 0 then (o, ["Invalid time format. Please use HH:MM (24-hour format)"])
          else check_for_missing_info
            { o with
              order_placement_time := some (.vInt t),
              is_order_placement_time_verified := true } true := rfl
      rw [h0, if_neg ht]
      obtain ⟨st, hst⟩ := cfmi_shape
        { o with
          order_placement_time := some (.vInt t),
          is_order_placement_time_verified := true } true
      rw [hst]
      exact ⟨rfl, rfl⟩
    · have h0 : handle_user_input o ("missing_" ++ "earliest_estimated_arrival_time") raw
            (some t) true =
          if t = 0 then (o, ["Invalid time format. Please use HH:MM (24-hour format)"])
          else check_for_missing_info
            { o with
              earliest_estimated_arrival_time := some (.vInt t),
              is_earliest_estimated_arrival_time_verified := true } true := rfl
      rw [h0, if_neg ht]
      obtain ⟨st, hst⟩ := cfmi_shape
        { o with
          earliest_estimated_arrival_time := some (.vInt t),
          is_earliest_estimated_arrival_time_verified := true } true
      rw [hst]
      exact ⟨rfl, rfl⟩
    · have h0 : handle_user_input o ("missing_" ++ "latest_estimated_arrival_time") raw
            (some t) true =
          if t = 0 then (o, ["Invalid time format. Please use HH:MM (24-hour format)"])
          else check_for_missing_info
            { o with
              latest_estimated_arrival_time := some (.vInt t),
              is_latest_estimated_arrival_time_verified := true } true := rfl
      rw [h0, if_neg ht]
      obtain ⟨st, hst⟩ := cfmi_shape
        { o with
          latest_estimated_arrival_time := some (.vInt t),
          is_latest_estimated_arrival_time_verified := true } true
      rw [hst]
      exact ⟨rfl, rfl⟩
    · have h0 : handle_user_input o ("missing_" ++ "order_completion_time") raw
            (some t) true =
          if t = 0 then (o, ["Invalid time format. Please use HH:MM (24-hour format)"])
          else check_for_missing_info
            { o with
              order_completion_time := some (.vInt t),
              is_order_completion_time_verified := true } true := rfl
      rw [h0, if_neg ht]
      obtain ⟨st, hst⟩ := cfmi_shape
        { o with
          order_completion_time := some (.vInt t),
          is_order_completion_time_verified := true } true
      rw [hst]
      exact ⟨rfl, rfl⟩
  · intro o raw pr
    have h0 : handle_user_input o ("missing_" ++ "restaurant_name") raw pr true =
        check_for_missing_info
          { o with
            restaurant_name := some (.vStr raw),
            is_restaurant_name_verified := true } true := rfl
    rw [h0]
    obtain ⟨st, hst⟩ := cfmi_shape
      { o with
        restaurant_name := some (.vStr raw),
        is_restaurant_name_verified := true } true
    rw [hst]
    exact ⟨rfl, rfl⟩

/-- Witness for C3 on the spec's example: only `order_completion_time`
is prompted for; supplying it sets both the field and its flag; with
nothing missing the order completes. -/
theorem backfill_required_witness :
    (("input_prompt:missing_" ++ "order_completion_time") ∈
      (check_for_missing_info backfillExampleOrder true).2) ∧
    ((handle_user_input backfillExampleOrder ("missing_" ++ "order_completion_time") "x"
        (some 99) true).1.getField "order_completion_time" = some (.vInt 99)) ∧
    ((handle_user_input backfillExampleOrder ("missing_" ++ "order_completion_time") "x"
        (some 99) true).1.getFlag "is_order_completion_time_verified" = true) ∧
    ((check_for_missing_info
        { backfillExampleOrder with
          order_completion_time := some (.vInt 99),
          is_order_completion_time_verified := true } true).1.status = "completed") := by
  have h := backfill_required_subset
  refine ⟨?_, ?_, ?_, ?_⟩
  · exact h.2.1 backfillExampleOrder true "order_completion_time"
      "is_order_completion_time_verified" (by decide) rfl rfl
  · exact (h.2.2.2.1 backfillExampleOrder "order_completion_time"
      "is_order_completion_time_verified" "x" 99 (by decide) (by decide) (by decide)).1
  · exact (h.2.2.2.1 backfillExampleOrder "order_completion_time"
      "is_order_completion_time_verified" "x" 99 (by decide) (by decide) (by decide)).2
  · exact (h.2.2.1 _ (by decide)).1

/-- Soundness of the verification scan: a returned pair is in the list,
its field has a value and its flag is false. -/
theorem scanNext_some (o : Order) :
    ∀ (l : List (String × String)) (f fl : String), scanNext o l = some (f, fl) →
      (f, fl) ∈ l ∧ (o.getField f).isSome = true ∧ o.getFlag fl = false := by
  intro l
  induction l with
  | nil => intro f fl h; cases h
  | cons p rest ih =>
    obtain ⟨a, b⟩ := p
    intro f fl h
    simp only [scanNext] at h
    by_cases hc : ((o.getField a).isSome && !(o.getFlag b)) = true
    · rw [if_pos hc] at h
      have h2 := Option.some.inj h
      rw [Prod.mk.injEq] at h2
      obtain ⟨rfl, rfl⟩ := h2
      rw [Bool.and_eq_true] at hc
      exact ⟨List.mem_cons_self _ _, hc.1, by simpa using hc.2⟩
    · rw [if_neg hc] at h
      obtain ⟨hm, h3, h4⟩ := ih f fl h
      exact ⟨List.mem_cons_of_mem _ hm, h3, h4⟩

/-- Counterexample to C5 as stated: the screenshot-merge operation does
not preserve the invariant.  Starting from an order satisfying the
invariant (completion time set and verified, in
`verifying_completion_data`), a re-uploaded image whose extraction
returns the all-`None` dict overwrites `order_completion_time` with
`NULL` while its verification flag stays true — and the subsequent
cascade even completes the order in that state. -/
theorem screenshot_merge_breaks_invariant :
    flagInvariant verifiedCompletionOrder = true ∧
    ((process_image ⟨"image/png", 100⟩ (some verifiedCompletionOrder) true allNoneExtract
        "c2.png" true).orderAfter.map flagInvariant) = some false ∧
    ((process_image ⟨"image/png", 100⟩ (some verifiedCompletionOrder) true allNoneExtract
        "c2.png" true).orderAfter.map Order.order_completion_time) = some none ∧
    ((process_image ⟨"image/png", 100⟩ (some verifiedCompletionOrder) true allNoneExtract
        "c2.png" true).orderAfter.map Order.is_order_completion_time_verified) =
      some true ∧
    ((process_image ⟨"image/png", 100⟩ (some verifiedCompletionOrder) true allNoneExtract
        "c2.png" true).orderAfter.map Order.status) = some "completed" :=
  ⟨rfl, rfl, rfl, rfl, rfl⟩

/-- C5 amended: the verification prompt is only ever generated for a
field whose stored value is non-null; confirming the pair returned by
`get_next_unverified_field` on the current record preserves the
invariant, as does any missing-tagged backfill input (which sets the
flag only together with a non-null value).  The screenshot merge,
however, does not preserve the invariant (see the counterexample): it
can overwrite a verified field with `NULL` while the flag stays true. -/
theorem invariant_preserved_by_confirm_and_backfill :
    (∀ (o : Order) (f fl : String), get_next_unverified_field o = some (f, fl) →
        (o.getField f).isSome = true) ∧
    (∀ (o : Order) (f fl : String) (sOk : Bool),
        get_next_unverified_field o = some (f, fl) → flagInvariant o = true →
        flagInvariant (handle_verification_yes o f fl sOk).1 = true) ∧
    (∀ (o : Order) (f fl raw : String) (pr : Option Int) (sOk : Bool),
        (f, fl) ∈ verification_order → flagInvariant o = true →
        flagInvariant (handle_user_input o ("missing_" ++ f) raw pr sOk).1 = true) := by
  refine ⟨?_, ?_, ?_⟩
  · intro o f fl h
    exact (scanNext_some o verification_order f fl h).2.1
  · intro o f fl sOk h hInv
    obtain ⟨hmem, hsome, hflag⟩ := scanNext_some o verification_order f fl h
    cases sOk with
    | false => exact hInv
    | true =>
      fin_cases hmem
      · have h0 : handle_verification_yes o "restaurant_name" "is_restaurant_name_verified" true =
            start_field_verification { o with is_restaurant_name_verified := true } true := rfl
        rw [h0]
        obtain ⟨st, hst⟩ := sfv_shape { o with is_restaurant_name_verified := true } true
        rw [hst]
        simp only [getField_rn] at hsome
        simp [flagInvariant] at hInv ⊢
        simp_all
      · have h0 : handle_verification_yes o "order_placement_time" "is_order_placement_time_verified" true =
            start_field_verification { o with is_order_placement_time_verified := true } true := rfl
        rw [h0]
        obtain ⟨st, hst⟩ := sfv_shape { o with is_order_placement_time_verified := true } true
        rw [hst]
        simp only [getField_opt] at hsome
        simp [flagInvariant] at hInv ⊢
        simp_all
      · have h0 : handle_verification_yes o "earliest_estimated_arrival_time" "is_earliest_estimated_arrival_time_verified" true =
            start_field_verification { o with is_earliest_estimated_arrival_time_verified := true } true := rfl
        rw [h0]
        obtain ⟨st, hst⟩ := sfv_shape { o with is_earliest_estimated_arrival_time_verified := true } true
        rw [hst]
        simp only [getField_eat] at hsome
        simp [flagInvariant] at hInv ⊢
        simp_all
      · have h0 : handle_verification_yes o "latest_estimated_arrival_time" "is_latest_estimated_arrival_time_verified" true =
            start_field_verification { o with is_latest_estimated_arrival_time_verified := true } true := rfl
        rw [h0]
        obtain ⟨st, hst⟩ := sfv_shape { o with is_latest_estimated_arrival_time_verified := true } true
        rw [hst]
        simp only [getField_lat] at hsome
        simp [flagInvariant] at hInv ⊢
        simp_all
      · have h0 : handle_verification_yes o "order_completion_time" "is_order_completion_time_verified" true =
            start_field_verification { o with is_order_completion_time_verified := true } true := rfl
        rw [h0]
        obtain ⟨st, hst⟩ := sfv_shape { o with is_order_completion_time_verified := true } true
        rw [hst]
        simp only [getField_oct] at hsome
        simp [flagInvariant] at hInv ⊢
        simp_all
      · have h0 : handle_verification_yes o "restaurant_address" "is_restaurant_address_verified" true =
            start_field_verification { o with is_restaurant_address_verified := true } true := rfl
        rw [h0]
        obtain ⟨st, hst⟩ := sfv_shape { o with is_restaurant_address_verified := true } true
        rw [hst]
        simp only [getField_ra] at hsome
        simp [flagInvariant] at hInv ⊢
        simp_all
  · intro o f fl raw pr sOk hmem hInv
    fin_cases hmem
    · cases sOk with
      | false => exact hInv
      | true =>
        have h0 : handle_user_input o ("missing_" ++ "restaurant_name") raw pr true =
            check_for_missing_info
              { o with
                restaurant_name := some (.vStr raw),
                is_restaurant_name_verified := true } true := rfl
        rw [h0]
        obtain ⟨st, hst⟩ := cfmi_shape
          { o with
            restaurant_name := some (.vStr raw),
            is_restaurant_name_verified := true } true
        rw [hst]
        simp [flagInvariant] at hInv ⊢
        simp_all
    · cases pr with
      | none => exact hInv
      | some t =>
        by_cases ht : t = 0
        · subst ht; exact hInv
        · cases sOk with
          | false =>
            have h0 : handle_user_input o ("missing_" ++ "order_placement_time") raw (some t) false =
                if t = 0 then
                  (o, ["Invalid time format. Please use HH:MM (24-hour format)"])
                else (o, []) := rfl
            rw [h0, if_neg ht]
            exact hInv
          | true =>
            have h0 : handle_user_input o ("missing_" ++ "order_placement_time") raw (some t) true =
                if t = 0 then
                  (o, ["Invalid time format. Please use HH:MM (24-hour format)"])
                else check_for_missing_info
                  { o with
                    order_placement_time := some (.vInt t),
                    is_order_placement_time_verified := true } true := rfl
            rw [h0, if_neg ht]
            obtain ⟨st, hst⟩ := cfmi_shape
              { o with
                order_placement_time := some (.vInt t),
                is_order_placement_time_verified := true } true
            rw [hst]
            simp [flagInvariant] at hInv ⊢
            simp_all
    · cases pr with
      | none => exact hInv
      | some t =>
        by_cases ht : t = 0
        · subst ht; exact hInv
        · cases sOk with
          | false =>
            have h0 : handle_user_input o ("missing_" ++ "earliest_estimated_arrival_time") raw (some t) false =
                if t = 0 then
                  (o, ["Invalid time format. Please use HH:MM (24-hour format)"])
                else (o, []) := rfl
            rw [h0, if_neg ht]
            exact hInv
          | true =>
            have h0 : handle_user_input o ("missing_" ++ "earliest_estimated_arrival_time") raw (some t) true =
                if t = 0 then
                  (o, ["Invalid time format. Please use HH:MM (24-hour format)"])
                else check_for_missing_info
                  { o with
                    earliest_estimated_arrival_time := some (.vInt t),
                    is_earliest_estimated_arrival_time_verified := true } true := rfl
            rw [h0, if_neg ht]
            obtain ⟨st, hst⟩ := cfmi_shape
              { o with
                earliest_estimated_arrival_time := some (.vInt t),
                is_earliest_estimated_arrival_time_verified := true } true
            rw [hst]
            simp [flagInvariant] at hInv ⊢
            simp_all
    · cases pr with
      | none => exact hInv
      | some t =>
        by_cases ht : t = 0
        · subst ht; exact hInv
        · cases sOk with
          | false =>
            have h0 : handle_user_input o ("missing_" ++ "latest_estimated_arrival_time") raw (some t) false =
                if t = 0 then
                  (o, ["Invalid time format. Please use HH:MM (24-hour format)"])
                else (o, []) := rfl
            rw [h0, if_neg ht]
            exact hInv
          | true =>
            have h0 : handle_user_input o ("missing_" ++ "latest_estimated_arrival_time") raw (some t) true =
                if t = 0 then
                  (o, ["Invalid time format. Please use HH:MM (24-hour format)"])
                else check_for_missing_info
                  { o with
                    latest_estimated_arrival_time := some (.vInt t),
                    is_latest_estimated_arrival_time_verified := true } true := rfl
            rw [h0, if_neg ht]
            obtain ⟨st, hst⟩ := cfmi_shape
              { o with
                latest_estimated_arrival_time := some (.vInt t),
                is_latest_estimated_arrival_time_verified := true } true
            rw [hst]
            simp [flagInvariant] at hInv ⊢
            simp_all
    · cases pr with
      | none => exact hInv
      | some t =>
        by_cases ht : t = 0
        · subst ht; exact hInv
        · cases sOk with
          | false =>
            have h0 : handle_user_input o ("missing_" ++ "order_completion_time") raw (some t) false =
                if t = 0 then
                  (o, ["Invalid time format. Please use HH:MM (24-hour format)"])
                else (o, []) := rfl
            rw [h0, if_neg ht]
            exact hInv
          | true =>
            have h0 : handle_user_input o ("missing_" ++ "order_completion_time") raw (some t) true =
                if t = 0 then
                  (o, ["Invalid time format. Please use HH:MM (24-hour format)"])
                else check_for_missing_info
                  { o with
                    order_completion_time := some (.vInt t),
                    is_order_completion_time_verified := true } true := rfl
            rw [h0, if_neg ht]
            obtain ⟨st, hst⟩ := cfmi_shape
              { o with
                order_completion_time := some (.vInt t),
                is_order_completion_time_verified := true } true
            rw [hst]
            simp [flagInvariant] at hInv ⊢
            simp_all
    · cases sOk with
      | false => exact hInv
      | true =>
        have h0 : handle_user_input o ("missing_" ++ "restaurant_address") raw pr true =
            check_for_missing_info
              { o with
                restaurant_address := some (.vStr raw),
                is_restaurant_address_verified := true } true := rfl
        rw [h0]
        obtain ⟨st, hst⟩ := cfmi_shape
          { o with
            restaurant_address := some (.vStr raw),
            is_restaurant_address_verified := true } true
        rw [hst]
        simp [flagInvariant] at hInv ⊢
        simp_all

/-- Witness for the amended C5 at a concrete confirm and backfill. -/
theorem invariant_preserved_witness :
    ((exOrderC2.getField "restaurant_name").isSome = true) ∧
    (flagInvariant (handle_verification_yes exOrderC2 "restaurant_name"
        "is_restaurant_name_verified" true).1 = true) ∧
    (flagInvariant (handle_user_input backfillExampleOrder
        ("missing_" ++ "order_completion_time") "x" (some 99) true).1 = true) := by
  have h := invariant_preserved_by_confirm_and_backfill
  refine ⟨?_, ?_, ?_⟩
  · exact h.1 exOrderC2 "restaurant_name" "is_restaurant_name_verified" rfl
  · exact h.2.1 exOrderC2 "restaurant_name" "is_restaurant_name_verified" true rfl rfl
  · exact h.2.2 backfillExampleOrder "order_completion_time"
      "is_order_completion_time_verified" "x" (some 99) true (by decide) rfl


end SnackNGo
